import Mathlib

/-
Verification of the dialog widget in src/source/template.tsx.

The template class keeps a fixed set of nodes (styles, wrapper, modal slot,
dialog body, skeleton host) and mutates render-tree membership:
  show(modal)  - if modal or properties.modal, insertBefore(modalSlot, wrapper)
                 on the shadow root; appendChild(dialog) on the wrapper;
                 dispatch a bubbling, non-cancelable Event on the skeleton.
  hide()       - modalSlot.remove(); dialog.remove(); dispatch on the skeleton.
  wait()       - returns a new Promise and stores its resolve function in the
                 private field confirmation (the reject function is ignored).
  success()    - if confirmation is set, call it with true and dispatch a
                 bubbling, non-cancelable Event on the skeleton.
  failure()    - same with false.
  ignoreHandler(event) - if properties.canIgnore and event.target === dialog,
                 call hide(); registered as a click listener on the wrapper.

The embedding below models the shadow root and the wrapper as ordered lists
of nodes, promises as an id-indexed map of settle states, and dispatched
events as an append-only log whose entries snapshot the state at dispatch
time (so post-mutation observability can be stated).
-/

namespace Dialog

/-- The nodes of the widget that the template code ever references.
The constructor inner models an arbitrary descendant of the dialog body
(so a click target can be distinguished from the body itself). -/
inductive Node where
  | styles
  | wrapper
  | modalSlot
  | dialog
  | skeleton
  | headerSlot
  | contentSlot
  | footerSlot
  | inner (n : Nat)
deriving DecidableEq, Repr

/-- Settle state of one promise returned by wait(). The rejected
constructor exists because the promise executor receives a reject
callable; the template never invokes it. -/
inductive PState where
  | pending
  | resolved (value : Bool)
  | rejected
deriving DecidableEq, Repr

/-- The configuration fields of Properties read by the template:
the modal flag and the canIgnore flag. -/
structure Props where
  modal : Bool
  canIgnore : Bool
deriving DecidableEq, Repr

/-- One dispatched Event, recorded with the node it was dispatched on, its
bubbles and cancelable options, and a snapshot of the widget state at
dispatch time. -/
structure Notif where
  name : String
  target : Node
  bubbles : Bool
  cancelable : Bool
  shadowSnap : List Node
  wrapperSnap : List Node
  confSnap : Option Nat
  promisesSnap : Nat → PState

/-- The mutable state of one Template instance: children of the shadow
root (field elements), children of the wrapper, the confirmation field
(id of the stored resolve function, none when undefined), a fresh-id
counter for promises created by wait(), the settle state of every
promise created so far, and the log of dispatched events. -/
structure State where
  shadowChildren : List Node
  wrapperChildren : List Node
  confirmation : Option Nat
  nextWaitId : Nat
  promises : Nat → PState
  log : List Notif

/-- Insert node n immediately before the first occurrence of ref
(appending at the end when ref is absent, a total stand-in for the DOM
error case that the template never reaches since the wrapper is always
attached). -/
def insertBeforeList : List Node → Node → Node → List Node
  | [], n, _ => [n]
  | c :: cs, n, ref => if c = ref then n :: c :: cs else c :: insertBeforeList cs n ref

/-- DOM insertBefore semantics: a node already in the tree is moved, not
cloned, so it is first detached and then inserted before ref. -/
def domInsertBefore (children : List Node) (n ref : Node) : List Node :=
  insertBeforeList (children.erase n) n ref

/-- DOM appendChild semantics: detach the node if present, then append it
as the last child. -/
def domAppendChild (children : List Node) (n : Node) : List Node :=
  children.erase n ++ [n]

/-- dispatchEvent of new Event(nm, { bubbles: true, cancelable: false })
on node t: append a log entry snapshotting the current state. -/
def dispatch (s : State) (nm : String) (t : Node) : State :=
  { s with log := s.log ++
      [⟨nm, t, true, false, s.shadowChildren, s.wrapperChildren, s.confirmation, s.promises⟩] }

/-- The state right after construction: the shadow root holds the style
node and the wrapper (in that order), the wrapper is empty, the
confirmation field is undefined, and no promise exists or is settled. -/
def init : State :=
  { shadowChildren := [Node.styles, Node.wrapper]
    wrapperChildren := []
    confirmation := none
    nextWaitId := 0
    promises := fun _ => PState.pending
    log := [] }

/-- The public show method: insert the modal slot before the wrapper when
modal or properties.modal holds, append the dialog body to the wrapper,
then dispatch the show event on the skeleton. -/
def «show» (p : Props) (modal : Bool) (s : State) : State :=
  let s1 := { s with shadowChildren :=
      if modal || p.modal then domInsertBefore s.shadowChildren Node.modalSlot Node.wrapper
      else s.shadowChildren }
  let s2 := { s1 with wrapperChildren := domAppendChild s1.wrapperChildren Node.dialog }
  dispatch s2 "show" Node.skeleton

/-- The public hide method: remove the modal slot and the dialog body,
then dispatch the hide event on the skeleton. -/
def hide (s : State) : State :=
  let s1 := { s with shadowChildren := s.shadowChildren.erase Node.modalSlot
                     wrapperChildren := s.wrapperChildren.erase Node.dialog }
  dispatch s1 "hide" Node.skeleton

/-- Invoking the resolve function of promise i with value b: a promise
settles only once, so a non-pending promise is left unchanged. -/
def resolveWith (f : Nat → PState) (i : Nat) (b : Bool) : Nat → PState :=
  fun j => if j = i then
      match f i with
      | PState.pending => PState.resolved b
      | st => st
    else f j

/-- The protected success method: when the confirmation field is set,
invoke the stored resolve function with true and dispatch the success
event on the skeleton; the field is not cleared. -/
def success (s : State) : State :=
  match s.confirmation with
  | some i => dispatch { s with promises := resolveWith s.promises i true } "success" Node.skeleton
  | none => s

/-- The protected failure method: when the confirmation field is set,
invoke the stored resolve function with false and dispatch the failure
event on the skeleton; the field is not cleared. -/
def failure (s : State) : State :=
  match s.confirmation with
  | some i => dispatch { s with promises := resolveWith s.promises i false } "failure" Node.skeleton
  | none => s

/-- The public wait method: create a fresh promise, store its resolve
function in the confirmation field (overwriting any previous one), and
return the promise id together with the new state. The reject function
of the executor is discarded. -/
def wait (s : State) : Nat × State :=
  (s.nextWaitId,
   { s with confirmation := some s.nextWaitId, nextWaitId := s.nextWaitId + 1 })

/-- The click listener registered on the wrapper: hide the dialog when
properties.canIgnore holds and the event target is exactly the dialog
body node. -/
def ignoreHandler (p : Props) (target : Node) (s : State) : State :=
  if p.canIgnore = true ∧ target = Node.dialog then hide s else s

/-- The externally triggerable operations of the widget. -/
inductive Op where
  | opShow (m : Bool)
  | opHide
  | opWait
  | opSuccess
  | opFailure
  | opClick (t : Node)
deriving DecidableEq, Repr

/-- One operation applied to a state. -/
def step (p : Props) (s : State) : Op → State
  | Op.opShow m => «show» p m s
  | Op.opHide => hide s
  | Op.opWait => (wait s).2
  | Op.opSuccess => success s
  | Op.opFailure => failure s
  | Op.opClick t => ignoreHandler p t s

/-- A sequence of operations applied in order. -/
def run (p : Props) (s : State) : List Op → State
  | [] => s
  | op :: ops => run p (step p s op) ops

/-- Number of logged events carrying the given name. -/
def notifCount (nm : String) (log : List Notif) : Nat :=
  (log.filter fun e => e.name == nm).length

/-- The inserted node is a member of the result of insertBeforeList. -/
theorem mem_insertBeforeList (l : List Node) (n ref : Node) : n ∈ insertBeforeList l n ref := by
  induction l with
  | nil => simp [insertBeforeList]
  | cons c cs ih =>
    simp only [insertBeforeList]
    split
    · exact List.mem_cons_self _ _
    · exact List.mem_cons_of_mem _ ih

/-- When the reference node occurs in the list, insertBeforeList places the
new node immediately before its first occurrence. -/
theorem insertBeforeList_adjacent {l : List Node} {ref : Node} (n : Node) (h : ref ∈ l) :
    ∃ l1 l2, insertBeforeList l n ref = l1 ++ n :: ref :: l2 := by
  induction l with
  | nil => cases h
  | cons c cs ih =>
    by_cases hc : c = ref
    · exact ⟨[], cs, by simp [insertBeforeList, hc]⟩
    · have h2 : ref ∈ cs := by
        rcases List.mem_cons.mp h with h1 | h1
        · exact absurd h1.symm hc
        · exact h1
      rcases ih h2 with ⟨l1, l2, hl⟩
      exact ⟨c :: l1, l2, by simp [insertBeforeList, hc, hl]⟩

/-- The show method leaves the confirmation field unchanged. -/
theorem show_confirmation (p : Props) (m : Bool) (s : State) :
    («show» p m s).confirmation = s.confirmation := rfl

/-- The show method leaves the promise states unchanged. -/
theorem show_promises (p : Props) (m : Bool) (s : State) :
    («show» p m s).promises = s.promises := rfl

/-- The show method leaves the wait counter unchanged. -/
theorem show_nextWaitId (p : Props) (m : Bool) (s : State) :
    («show» p m s).nextWaitId = s.nextWaitId := rfl

/-- Shadow-root children after show: the modal slot is inserted before the
wrapper exactly when the effective modality holds. -/
theorem show_shadowChildren (p : Props) (m : Bool) (s : State) :
    («show» p m s).shadowChildren =
      if (m || p.modal) = true then domInsertBefore s.shadowChildren Node.modalSlot Node.wrapper
      else s.shadowChildren := rfl

/-- Wrapper children after show: the dialog body is appended. -/
theorem show_wrapperChildren (p : Props) (m : Bool) (s : State) :
    («show» p m s).wrapperChildren = domAppendChild s.wrapperChildren Node.dialog := rfl

/-- The hide method leaves the confirmation field unchanged. -/
theorem hide_confirmation (s : State) : (hide s).confirmation = s.confirmation := rfl

/-- The hide method leaves the promise states unchanged. -/
theorem hide_promises (s : State) : (hide s).promises = s.promises := rfl

/-- The hide method leaves the wait counter unchanged. -/
theorem hide_nextWaitId (s : State) : (hide s).nextWaitId = s.nextWaitId := rfl

/-- Shadow-root children after hide: the modal slot is erased. -/
theorem hide_shadowChildren (s : State) :
    (hide s).shadowChildren = s.shadowChildren.erase Node.modalSlot := rfl

/-- Wrapper children after hide: the dialog body is erased. -/
theorem hide_wrapperChildren (s : State) :
    (hide s).wrapperChildren = s.wrapperChildren.erase Node.dialog := rfl

/-- notifCount distributes over list append. -/
theorem notifCount_append (nm : String) (l1 l2 : List Notif) :
    notifCount nm (l1 ++ l2) = notifCount nm l1 + notifCount nm l2 := by
  simp [notifCount, List.filter_append]

/-- notifCount on a single entry checks that entry's name. -/
theorem notifCount_singleton (nm : String) (e : Notif) :
    notifCount nm [e] = if e.name == nm then 1 else 0 := by
  simp only [notifCount, List.filter]
  split <;> simp_all

/-- The log after a dispatch is the old log with one snapshot entry. -/
theorem dispatch_log (s : State) (nm : String) (t : Node) :
    (dispatch s nm t).log = s.log ++
      [⟨nm, t, true, false, s.shadowChildren, s.wrapperChildren, s.confirmation, s.promises⟩] := rfl

/-- A dispatch of an event adds one to the count of that event's name. -/
theorem notifCount_dispatch_same (nm : String) (s : State) (t : Node) :
    notifCount nm (dispatch s nm t).log = notifCount nm s.log + 1 := by
  rw [dispatch_log, notifCount_append, notifCount_singleton]
  simp

/-- A dispatch of an event leaves the count of any other name unchanged. -/
theorem notifCount_dispatch_other (nm nm2 : String) (s : State) (t : Node) (h : nm2 ≠ nm) :
    notifCount nm (dispatch s nm2 t).log = notifCount nm s.log := by
  rw [dispatch_log, notifCount_append, notifCount_singleton]
  simp [h]

/-- Auxiliary: one operation neither settles a promise whose id is below
the wait counter and differs from the stored confirmation id, nor makes
that id reachable again. -/
theorem step_untouched (p : Props) (s : State) (op : Op) (i : Nat)
    (hlt : i < s.nextWaitId) (hne : ∀ j, s.confirmation = some j → j ≠ i) :
    (step p s op).promises i = s.promises i
    ∧ i < (step p s op).nextWaitId
    ∧ ∀ j, (step p s op).confirmation = some j → j ≠ i := by
  cases op with
  | opShow m => exact ⟨rfl, hlt, hne⟩
  | opHide => exact ⟨rfl, hlt, hne⟩
  | opWait =>
    refine ⟨rfl, Nat.lt_succ_of_lt hlt, ?_⟩
    intro j hj
    have hj2 : s.nextWaitId = j := Option.some.inj hj
    omega
  | opSuccess =>
    cases hconf : s.confirmation with
    | none =>
      have hstep : step p s Op.opSuccess = s := by simp [step, success, hconf]
      rw [hstep]
      exact ⟨rfl, hlt, hne⟩
    | some j =>
      simp only [step, success, hconf]
      have hij : ¬ i = j := fun h => hne j hconf h.symm
      refine ⟨?_, hlt, ?_⟩
      · simp [dispatch, resolveWith, hij]
      · intro k hk
        have hjk : j = k := Option.some.inj hk
        exact hjk ▸ hne j hconf
  | opFailure =>
    cases hconf : s.confirmation with
    | none =>
      have hstep : step p s Op.opFailure = s := by simp [step, failure, hconf]
      rw [hstep]
      exact ⟨rfl, hlt, hne⟩
    | some j =>
      simp only [step, failure, hconf]
      have hij : ¬ i = j := fun h => hne j hconf h.symm
      refine ⟨?_, hlt, ?_⟩
      · simp [dispatch, resolveWith, hij]
      · intro k hk
        have hjk : j = k := Option.some.inj hk
        exact hjk ▸ hne j hconf
  | opClick t =>
    simp only [step, ignoreHandler]
    split
    · exact ⟨rfl, hlt, hne⟩
    · exact ⟨rfl, hlt, hne⟩

/-- Auxiliary: a whole run of operations leaves such a promise unchanged. -/
theorem run_untouched (p : Props) (ops : List Op) (s : State) (i : Nat)
    (hlt : i < s.nextWaitId) (hne : ∀ j, s.confirmation = some j → j ≠ i) :
    (run p s ops).promises i = s.promises i := by
  induction ops generalizing s with
  | nil => rfl
  | cons op ops ih =>
    rcases step_untouched p s op i hlt hne with ⟨h1, h2, h3⟩
    simp only [run]
    rw [ih (step p s op) h2 h3, h1]

/-- C1: counterexample. After show(true) from the initial state with the
configured modal property false, a further show(false) leaves the backdrop
slot node in the render tree even though the effective modality of that
call is false, so presence of the backdrop after show(m) is not equivalent
to m being true or the configured modal property being true. -/
theorem show_backdrop_stale_counterexample :
    Node.modalSlot ∈ («show» ⟨false, false⟩ false («show» ⟨false, false⟩ true init)).shadowChildren
    ∧ (false || (Props.mk false false).modal) = false := by decide

/-- C1 (amended): after show(m), the backdrop slot node is present in the
render tree iff m is true, or the configured modal property is true, or the
backdrop was already present before the call; when the effective modality
holds, the backdrop sits immediately before the wrapper node; the dialog
body node is attached into the wrapper node unconditionally. -/
theorem show_backdrop_amended (p : Props) (m : Bool) (s : State)
    (hw : Node.wrapper ∈ s.shadowChildren) :
    (Node.modalSlot ∈ («show» p m s).shadowChildren ↔
      (m || p.modal) = true ∨ Node.modalSlot ∈ s.shadowChildren)
    ∧ Node.dialog ∈ («show» p m s).wrapperChildren
    ∧ ((m || p.modal) = true →
        ∃ l1 l2, («show» p m s).shadowChildren = l1 ++ Node.modalSlot :: Node.wrapper :: l2) := by
  refine ⟨?_, ?_, ?_⟩
  · rw [show_shadowChildren]
    by_cases hm : (m || p.modal) = true
    · rw [if_pos hm]
      constructor
      · intro _
        exact Or.inl hm
      · intro _
        exact mem_insertBeforeList _ _ _
    · rw [if_neg hm]
      simp [hm]
  · rw [show_wrapperChildren]
    simp [domAppendChild]
  · intro hm
    rw [show_shadowChildren, if_pos hm]
    have hne : Node.wrapper ≠ Node.modalSlot := by decide
    have hmem : Node.wrapper ∈ s.shadowChildren.erase Node.modalSlot :=
      (List.mem_erase_of_ne hne).mpr hw
    exact insertBeforeList_adjacent Node.modalSlot hmem

/-- C1 witness: the amended statement holds concretely for show(true) from
the initial state with the configured modal property false. -/
theorem show_backdrop_amended_witness :
    Node.wrapper ∈ init.shadowChildren
    ∧ ((Node.modalSlot ∈ («show» ⟨false, false⟩ true init).shadowChildren ↔
        (true || (Props.mk false false).modal) = true ∨ Node.modalSlot ∈ init.shadowChildren)
      ∧ Node.dialog ∈ («show» ⟨false, false⟩ true init).wrapperChildren
      ∧ ((true || (Props.mk false false).modal) = true →
          ∃ l1 l2, («show» ⟨false, false⟩ true init).shadowChildren
            = l1 ++ Node.modalSlot :: Node.wrapper :: l2)) :=
  ⟨by decide, show_backdrop_amended ⟨false, false⟩ true init (by decide)⟩

/-- C2: hide removes both the backdrop slot node and the dialog body node
from the render tree (a no-op on a node already absent), a second hide
changes neither list further, and each call dispatches exactly one hide
notification. Stated for states whose child lists are duplicate-free, as
every real DOM tree is. -/
theorem hide_idempotent (s : State)
    (h1 : s.shadowChildren.Nodup) (h2 : s.wrapperChildren.Nodup) :
    Node.modalSlot ∉ (hide s).shadowChildren
    ∧ Node.dialog ∉ (hide s).wrapperChildren
    ∧ Node.modalSlot ∉ (hide (hide s)).shadowChildren
    ∧ Node.dialog ∉ (hide (hide s)).wrapperChildren
    ∧ (hide (hide s)).shadowChildren = (hide s).shadowChildren
    ∧ (hide (hide s)).wrapperChildren = (hide s).wrapperChildren
    ∧ notifCount "hide" (hide s).log = notifCount "hide" s.log + 1
    ∧ notifCount "hide" (hide (hide s)).log = notifCount "hide" (hide s).log + 1 := by
  have hs1 : Node.modalSlot ∉ (hide s).shadowChildren := by
    rw [hide_shadowChildren]
    exact h1.not_mem_erase
  have hw1 : Node.dialog ∉ (hide s).wrapperChildren := by
    rw [hide_wrapperChildren]
    exact h2.not_mem_erase
  have hs2 : (hide (hide s)).shadowChildren = (hide s).shadowChildren := by
    rw [hide_shadowChildren (hide s)]
    exact List.erase_of_not_mem hs1
  have hw2 : (hide (hide s)).wrapperChildren = (hide s).wrapperChildren := by
    rw [hide_wrapperChildren (hide s)]
    exact List.erase_of_not_mem hw1
  have hcount : ∀ t : State, notifCount "hide" (hide t).log = notifCount "hide" t.log + 1 := by
    intro t
    have : (hide t).log = t.log ++
        [⟨"hide", Node.skeleton, true, false, t.shadowChildren.erase Node.modalSlot,
          t.wrapperChildren.erase Node.dialog, t.confirmation, t.promises⟩] := rfl
    rw [this, notifCount_append, notifCount_singleton]
    simp
  exact ⟨hs1, hw1, hs2 ▸ hs1, hw2 ▸ hw1, hs2, hw2, hcount s, hcount (hide s)⟩

/-- C2 witness: the idempotence statement holds concretely at the state
reached by show(true) from the initial state. -/
theorem hide_idempotent_witness :
    («show» ⟨false, false⟩ true init).shadowChildren.Nodup
    ∧ («show» ⟨false, false⟩ true init).wrapperChildren.Nodup
    ∧ (Node.modalSlot ∉ (hide («show» ⟨false, false⟩ true init)).shadowChildren
      ∧ Node.dialog ∉ (hide («show» ⟨false, false⟩ true init)).wrapperChildren
      ∧ Node.modalSlot ∉ (hide (hide («show» ⟨false, false⟩ true init))).shadowChildren
      ∧ Node.dialog ∉ (hide (hide («show» ⟨false, false⟩ true init))).wrapperChildren
      ∧ (hide (hide («show» ⟨false, false⟩ true init))).shadowChildren
          = (hide («show» ⟨false, false⟩ true init)).shadowChildren
      ∧ (hide (hide («show» ⟨false, false⟩ true init))).wrapperChildren
          = (hide («show» ⟨false, false⟩ true init)).wrapperChildren
      ∧ notifCount "hide" (hide («show» ⟨false, false⟩ true init)).log
          = notifCount "hide" («show» ⟨false, false⟩ true init).log + 1
      ∧ notifCount "hide" (hide (hide («show» ⟨false, false⟩ true init))).log
          = notifCount "hide" (hide («show» ⟨false, false⟩ true init)).log + 1) :=
  ⟨by decide, by decide, hide_idempotent («show» ⟨false, false⟩ true init) (by decide) (by decide)⟩

/-- C3: after two wait() calls with no intervening settle, success()
settles the promise returned by the second call with true (failure() with
false), while the promise returned by the first call is left untouched and
still pending after any subsequent sequence of operations. Stated for
states whose promise ids at or above the wait counter are still pending,
as in every reachable state. -/
theorem wait_overwrite_second_settles (p : Props) (s : State) (ops : List Op)
    (hfresh : ∀ j, s.nextWaitId ≤ j → s.promises j = PState.pending) :
    (success (wait (wait s).2).2).promises (wait (wait s).2).1 = PState.resolved true
    ∧ (failure (wait (wait s).2).2).promises (wait (wait s).2).1 = PState.resolved false
    ∧ (run p (wait (wait s).2).2 ops).promises (wait s).1 = PState.pending := by
  have h1 : s.promises s.nextWaitId = PState.pending := hfresh _ (Nat.le_refl _)
  have h2 : s.promises (s.nextWaitId + 1) = PState.pending := hfresh _ (Nat.le_succ _)
  refine ⟨?_, ?_, ?_⟩
  · show resolveWith s.promises (s.nextWaitId + 1) true (s.nextWaitId + 1) = PState.resolved true
    simp [resolveWith, h2]
  · show resolveWith s.promises (s.nextWaitId + 1) false (s.nextWaitId + 1) = PState.resolved false
    simp [resolveWith, h2]
  · have hrun := run_untouched p ops (wait (wait s).2).2 (wait s).1
      (show s.nextWaitId < s.nextWaitId + 1 + 1 by omega)
      (fun j hj => by
        have hj2 : s.nextWaitId + 1 = j := Option.some.inj hj
        show j ≠ s.nextWaitId
        omega)
    rw [hrun]
    exact h1

/-- C3 witness: the statement holds concretely from the initial state with
a run that shows, hides and settles afterwards. -/
theorem wait_overwrite_second_settles_witness :
    (∀ j, init.nextWaitId ≤ j → init.promises j = PState.pending)
    ∧ ((success (wait (wait init).2).2).promises (wait (wait init).2).1 = PState.resolved true
      ∧ (failure (wait (wait init).2).2).promises (wait (wait init).2).1 = PState.resolved false
      ∧ (run ⟨false, false⟩ (wait (wait init).2).2
          [Op.opShow true, Op.opHide, Op.opSuccess, Op.opFailure]).promises (wait init).1
          = PState.pending) :=
  ⟨fun _ _ => rfl,
   wait_overwrite_second_settles ⟨false, false⟩ init
     [Op.opShow true, Op.opHide, Op.opSuccess, Op.opFailure] (fun _ _ => rfl)⟩

/-- C4: counterexample. From the initial state, wait() then success()
settles the pending promise, yet a second success() is not a silent no-op:
the stored resolve function is never cleared, so the second call
dispatches another success notification. -/
theorem settled_success_reemits_counterexample :
    (success (wait init).2).promises 0 = PState.resolved true
    ∧ (success (wait init).2).confirmation = some 0
    ∧ notifCount "success" (success (success (wait init).2)).log
        = notifCount "success" (success (wait init).2).log + 1 := by decide

/-- C4 (amended): success() and failure() are silent no-ops exactly when
the confirmation field is unset, which holds before the first wait() but
not after a settled wait(): there the stored resolve function persists, so
a further success() or failure() leaves every promise unchanged (the
promise settles only once) but dispatches another success or failure
notification. -/
theorem success_failure_noop_amended (s t : State) (i : Nat) (b : Bool)
    (hs : s.confirmation = none)
    (ht : t.confirmation = some i) (hb : t.promises i = PState.resolved b) :
    success s = s
    ∧ failure s = s
    ∧ (success t).promises = t.promises
    ∧ notifCount "success" (success t).log = notifCount "success" t.log + 1
    ∧ (failure t).promises = t.promises
    ∧ notifCount "failure" (failure t).log = notifCount "failure" t.log + 1 := by
  refine ⟨by simp [success, hs], by simp [failure, hs], ?_, ?_, ?_, ?_⟩
  · funext j
    simp only [success, ht, dispatch]
    by_cases hj : j = i
    · subst hj
      simp [resolveWith, hb]
    · simp [resolveWith, hj]
  · simp only [success, ht]
    exact notifCount_dispatch_same _ _ _
  · funext j
    simp only [failure, ht, dispatch]
    by_cases hj : j = i
    · subst hj
      simp [resolveWith, hb]
    · simp [resolveWith, hj]
  · simp only [failure, ht]
    exact notifCount_dispatch_same _ _ _

/-- C4 witness: the amended statement holds concretely with the unset
state being the initial state and the settled state being the one reached
by wait() then success(). -/
theorem success_failure_noop_amended_witness :
    init.confirmation = none
    ∧ (success (wait init).2).confirmation = some 0
    ∧ (success (wait init).2).promises 0 = PState.resolved true
    ∧ (success init = init
      ∧ failure init = init
      ∧ (success (success (wait init).2)).promises = (success (wait init).2).promises
      ∧ notifCount "success" (success (success (wait init).2)).log
          = notifCount "success" (success (wait init).2).log + 1
      ∧ (failure (success (wait init).2)).promises = (success (wait init).2).promises
      ∧ notifCount "failure" (failure (success (wait init).2)).log
          = notifCount "failure" (success (wait init).2).log + 1) :=
  ⟨rfl, by decide, by decide,
   success_failure_noop_amended init (success (wait init).2) 0 true rfl (by decide) (by decide)⟩

/-- C5: wait() stores the id of the promise it returns in the confirmation
field; with that promise pending, success() settles it with true and
dispatches exactly one success notification (and no failure one), while
failure() settles it with false and dispatches exactly one failure
notification (and no success one). -/
theorem success_failure_settle_pending (s u : State) (i : Nat)
    (hc : s.confirmation = some i) (hp : s.promises i = PState.pending) :
    (wait u).2.confirmation = some (wait u).1
    ∧ (success s).promises i = PState.resolved true
    ∧ (success s).log.length = s.log.length + 1
    ∧ notifCount "success" (success s).log = notifCount "success" s.log + 1
    ∧ notifCount "failure" (success s).log = notifCount "failure" s.log
    ∧ (failure s).promises i = PState.resolved false
    ∧ (failure s).log.length = s.log.length + 1
    ∧ notifCount "failure" (failure s).log = notifCount "failure" s.log + 1
    ∧ notifCount "success" (failure s).log = notifCount "success" s.log := by
  refine ⟨rfl, ?_, ?_, ?_, ?_, ?_, ?_, ?_, ?_⟩
  · simp only [success, hc]
    simp [dispatch, resolveWith, hp]
  · simp only [success, hc]
    rw [dispatch_log]
    simp
  · simp only [success, hc]
    exact notifCount_dispatch_same _ _ _
  · simp only [success, hc]
    exact notifCount_dispatch_other _ _ _ _ (by decide)
  · simp only [failure, hc]
    simp [dispatch, resolveWith, hp]
  · simp only [failure, hc]
    rw [dispatch_log]
    simp
  · simp only [failure, hc]
    exact notifCount_dispatch_same _ _ _
  · simp only [failure, hc]
    exact notifCount_dispatch_other _ _ _ _ (by decide)

/-- C5 witness: the statement holds concretely at the state reached by one
wait() from the initial state. -/
theorem success_failure_settle_pending_witness :
    (wait init).2.confirmation = some 0
    ∧ (wait init).2.promises 0 = PState.pending
    ∧ ((wait init).2.confirmation = some (wait init).1
      ∧ (success (wait init).2).promises 0 = PState.resolved true
      ∧ (success (wait init).2).log.length = (wait init).2.log.length + 1
      ∧ notifCount "success" (success (wait init).2).log
          = notifCount "success" (wait init).2.log + 1
      ∧ notifCount "failure" (success (wait init).2).log
          = notifCount "failure" (wait init).2.log
      ∧ (failure (wait init).2).promises 0 = PState.resolved false
      ∧ (failure (wait init).2).log.length = (wait init).2.log.length + 1
      ∧ notifCount "failure" (failure (wait init).2).log
          = notifCount "failure" (wait init).2.log + 1
      ∧ notifCount "success" (failure (wait init).2).log
          = notifCount "success" (wait init).2.log) :=
  ⟨by decide, by decide,
   success_failure_settle_pending (wait init).2 init 0 (by decide) (by decide)⟩

/-- A hide call adds exactly one hide notification to the log. -/
theorem notifCount_hide (s : State) :
    notifCount "hide" (hide s).log = notifCount "hide" s.log + 1 := by
  have h : (hide s).log = s.log ++
      [⟨"hide", Node.skeleton, true, false, s.shadowChildren.erase Node.modalSlot,
        s.wrapperChildren.erase Node.dialog, s.confirmation, s.promises⟩] := rfl
  rw [h, notifCount_append, notifCount_singleton]
  simp

/-- C6: the wrapper click handler invokes hide() iff canIgnore is true and
the event's direct target is exactly the dialog body node: then the dialog
body leaves the render tree and one hide notification is dispatched; with
canIgnore false, or a target other than the dialog body (for instance a
descendant of it), the state is completely unchanged. -/
theorem ignore_handler_gating (p : Props) (t : Node) (s : State)
    (hw : s.wrapperChildren.Nodup) :
    (p.canIgnore = true → t = Node.dialog →
      ignoreHandler p t s = hide s
      ∧ Node.dialog ∉ (ignoreHandler p t s).wrapperChildren
      ∧ notifCount "hide" (ignoreHandler p t s).log = notifCount "hide" s.log + 1)
    ∧ (p.canIgnore = false → ignoreHandler p t s = s)
    ∧ (t ≠ Node.dialog → ignoreHandler p t s = s) := by
  refine ⟨?_, ?_, ?_⟩
  · intro h1 h2
    have he : ignoreHandler p t s = hide s := by simp [ignoreHandler, h1, h2]
    refine ⟨he, ?_, ?_⟩
    · rw [he, hide_wrapperChildren]
      exact hw.not_mem_erase
    · rw [he]
      exact notifCount_hide s
  · intro h1
    simp [ignoreHandler, h1]
  · intro h1
    simp [ignoreHandler, h1]

/-- C6 witness: the gating holds concretely with canIgnore true at the
state reached by show(true), where the click target is the dialog body. -/
theorem ignore_handler_gating_witness :
    («show» ⟨false, true⟩ true init).wrapperChildren.Nodup
    ∧ (((Props.mk false true).canIgnore = true → Node.dialog = Node.dialog →
        ignoreHandler ⟨false, true⟩ Node.dialog («show» ⟨false, true⟩ true init)
          = hide («show» ⟨false, true⟩ true init)
        ∧ Node.dialog ∉ (ignoreHandler ⟨false, true⟩ Node.dialog
            («show» ⟨false, true⟩ true init)).wrapperChildren
        ∧ notifCount "hide" (ignoreHandler ⟨false, true⟩ Node.dialog
            («show» ⟨false, true⟩ true init)).log
          = notifCount "hide" («show» ⟨false, true⟩ true init).log + 1)
      ∧ ((Props.mk false true).canIgnore = false →
          ignoreHandler ⟨false, true⟩ Node.dialog («show» ⟨false, true⟩ true init)
            = «show» ⟨false, true⟩ true init)
      ∧ (Node.dialog ≠ Node.dialog →
          ignoreHandler ⟨false, true⟩ Node.dialog («show» ⟨false, true⟩ true init)
            = «show» ⟨false, true⟩ true init)) :=
  ⟨by decide,
   ignore_handler_gating ⟨false, true⟩ Node.dialog («show» ⟨false, true⟩ true init) (by decide)⟩

/-- C7: hide() never settles the Confirmation Channel: any number of
hide() calls leaves the confirmation field and the whole promise map
exactly as they were, so a pending wait() promise is still pending. -/
theorem hide_preserves_confirmation (p : Props) (s : State) (i n : Nat)
    (hc : s.confirmation = some i) (hp : s.promises i = PState.pending) :
    (run p s (List.replicate n Op.opHide)).confirmation = some i
    ∧ (run p s (List.replicate n Op.opHide)).promises = s.promises
    ∧ (run p s (List.replicate n Op.opHide)).promises i = PState.pending := by
  have key : ∀ m t, (run p t (List.replicate m Op.opHide)).confirmation = t.confirmation
      ∧ (run p t (List.replicate m Op.opHide)).promises = t.promises := by
    intro m
    induction m with
    | zero => intro t; exact ⟨rfl, rfl⟩
    | succ k ih =>
      intro t
      rw [List.replicate_succ]
      simp only [run, step]
      rcases ih (hide t) with ⟨ha, hb⟩
      exact ⟨ha.trans (hide_confirmation t), hb.trans (hide_promises t)⟩
  rcases key n s with ⟨ha, hb⟩
  refine ⟨ha.trans hc, hb, ?_⟩
  rw [hb]
  exact hp

/-- C7 witness: the statement holds concretely for two hide() calls after
one wait() from the initial state. -/
theorem hide_preserves_confirmation_witness :
    (wait init).2.confirmation = some 0
    ∧ (wait init).2.promises 0 = PState.pending
    ∧ ((run ⟨false, false⟩ (wait init).2 (List.replicate 2 Op.opHide)).confirmation = some 0
      ∧ (run ⟨false, false⟩ (wait init).2 (List.replicate 2 Op.opHide)).promises
          = (wait init).2.promises
      ∧ (run ⟨false, false⟩ (wait init).2 (List.replicate 2 Op.opHide)).promises 0
          = PState.pending) :=
  ⟨by decide, by decide,
   hide_preserves_confirmation ⟨false, false⟩ (wait init).2 0 2 (by decide) (by decide)⟩

/-- Predicate: the method f, run on state s, returns with exactly one new
event named nm appended to the log, dispatched on the skeleton, bubbling
and non-cancelable, whose snapshot fields coincide with the state f
returns — so a synchronous listener observes the post-mutation state. -/
def emitsPostState (f : State → State) (nm : String) (s : State) : Prop :=
  (f s).log = s.log ++
    [⟨nm, Node.skeleton, true, false, (f s).shadowChildren, (f s).wrapperChildren,
      (f s).confirmation, (f s).promises⟩]

/-- C8: show, hide, success and failure dispatch their notification after
the corresponding tree mutation or settle action and before returning: the
single appended log entry's snapshot equals the returned state (for
success and failure, when the confirmation field is set; otherwise they
dispatch nothing at all). -/
theorem notifications_post_mutation (p : Props) (m : Bool) (s : State) (i : Nat)
    (hc : s.confirmation = some i) :
    emitsPostState («show» p m) "show" s
    ∧ emitsPostState hide "hide" s
    ∧ emitsPostState success "success" s
    ∧ emitsPostState failure "failure" s := by
  refine ⟨rfl, rfl, ?_, ?_⟩
  · simp only [emitsPostState, success, hc]
    rfl
  · simp only [emitsPostState, failure, hc]
    rfl

/-- C8 witness: the post-mutation snapshot property holds concretely at
the state reached by one wait() from the initial state. -/
theorem notifications_post_mutation_witness :
    (wait init).2.confirmation = some 0
    ∧ (emitsPostState («show» ⟨false, false⟩ true) "show" (wait init).2
      ∧ emitsPostState hide "hide" (wait init).2
      ∧ emitsPostState success "success" (wait init).2
      ∧ emitsPostState failure "failure" (wait init).2) :=
  ⟨by decide, notifications_post_mutation ⟨false, false⟩ true (wait init).2 0 (by decide)⟩

/-- C9: counterexample. The one success notification produced by wait()
then success() from the initial state is dispatched on the skeleton (host)
node, which is not the dialog body node. -/
theorem notification_target_counterexample :
    ((success (wait init).2).log.map fun e => e.target) = [Node.skeleton]
    ∧ Node.skeleton ≠ Node.dialog := by decide

/-- C9 (amended): the success and failure notifications are dispatched on
the skeleton (host) element rather than on the dialog body: with the
confirmation field set, each call appends exactly one event, bubbling and
non-cancelable, whose dispatch node is the skeleton. -/
theorem notification_target_amended (s : State) (i : Nat)
    (hc : s.confirmation = some i) :
    ((success s).log.getLast?).map (fun e => (e.name, e.target, e.bubbles, e.cancelable))
      = some ("success", Node.skeleton, true, false)
    ∧ (success s).log.length = s.log.length + 1
    ∧ ((failure s).log.getLast?).map (fun e => (e.name, e.target, e.bubbles, e.cancelable))
      = some ("failure", Node.skeleton, true, false)
    ∧ (failure s).log.length = s.log.length + 1 := by
  refine ⟨?_, ?_, ?_, ?_⟩
  · simp only [success, hc]
    rw [dispatch_log]
    simp
  · simp only [success, hc]
    rw [dispatch_log]
    simp
  · simp only [failure, hc]
    rw [dispatch_log]
    simp
  · simp only [failure, hc]
    rw [dispatch_log]
    simp

/-- C9 witness: the amended statement holds concretely at the state
reached by one wait() from the initial state. -/
theorem notification_target_amended_witness :
    (wait init).2.confirmation = some 0
    ∧ (((success (wait init).2).log.getLast?).map
        (fun e => (e.name, e.target, e.bubbles, e.cancelable))
        = some ("success", Node.skeleton, true, false)
      ∧ (success (wait init).2).log.length = (wait init).2.log.length + 1
      ∧ ((failure (wait init).2).log.getLast?).map
        (fun e => (e.name, e.target, e.bubbles, e.cancelable))
        = some ("failure", Node.skeleton, true, false)
      ∧ (failure (wait init).2).log.length = (wait init).2.log.length + 1) :=
  ⟨by decide, notification_target_amended (wait init).2 0 (by decide)⟩

/-- Auxiliary: no operation can put a promise into the rejected state. -/
theorem step_no_reject (p : Props) (s : State) (op : Op)
    (h : ∀ i, s.promises i ≠ PState.rejected) :
    ∀ i, (step p s op).promises i ≠ PState.rejected := by
  cases op with
  | opShow m => exact h
  | opHide => exact h
  | opWait => exact h
  | opSuccess =>
    cases hconf : s.confirmation with
    | none =>
      have hstep : step p s Op.opSuccess = s := by simp [step, success, hconf]
      rw [hstep]
      exact h
    | some j =>
      have hstep : ∀ k, (step p s Op.opSuccess).promises k = resolveWith s.promises j true k := by
        intro k
        simp [step, success, hconf, dispatch]
      intro k
      rw [hstep k]
      simp only [resolveWith]
      by_cases hkj : k = j
      · rw [if_pos hkj]
        cases hpj : s.promises j with
        | pending => simp
        | resolved b => simp
        | rejected => exact absurd hpj (h j)
      · rw [if_neg hkj]
        exact h k
  | opFailure =>
    cases hconf : s.confirmation with
    | none =>
      have hstep : step p s Op.opFailure = s := by simp [step, failure, hconf]
      rw [hstep]
      exact h
    | some j =>
      have hstep : ∀ k, (step p s Op.opFailure).promises k = resolveWith s.promises j false k := by
        intro k
        simp [step, failure, hconf, dispatch]
      intro k
      rw [hstep k]
      simp only [resolveWith]
      by_cases hkj : k = j
      · rw [if_pos hkj]
        cases hpj : s.promises j with
        | pending => simp
        | resolved b => simp
        | rejected => exact absurd hpj (h j)
      · rw [if_neg hkj]
        exact h k
  | opClick t =>
    simp only [step, ignoreHandler]
    split
    · exact h
    · exact h

/-- Auxiliary: a whole run keeps every promise out of the rejected state. -/
theorem run_no_reject (p : Props) (ops : List Op) (s : State)
    (h : ∀ i, s.promises i ≠ PState.rejected) :
    ∀ i, (run p s ops).promises i ≠ PState.rejected := by
  induction ops generalizing s with
  | nil => exact h
  | cons op ops ih => exact ih (step p s op) (step_no_reject p s op h)

/-- C10: the awaitable returned by wait() never rejects: starting from the
initial state, after any sequence of operations every promise is either
still pending or resolved with a boolean, never rejected — the reject
function received by the promise executor in wait() is discarded and no
operation invokes it. -/
theorem wait_never_rejects (p : Props) (ops : List Op) (i : Nat) :
    (run p init ops).promises i = PState.pending
    ∨ (run p init ops).promises i = PState.resolved true
    ∨ (run p init ops).promises i = PState.resolved false := by
  have h := run_no_reject p ops init (fun _ hr => PState.noConfusion hr)
  cases hv : (run p init ops).promises i with
  | pending => exact Or.inl rfl
  | resolved b =>
    cases b with
    | true => exact Or.inr (Or.inl rfl)
    | false => exact Or.inr (Or.inr rfl)
  | rejected => exact absurd hv (h i)

end Dialog
